import Mathlib

/-!
Shallow embedding of `src/pretix/control/views/auth.py` (pretix control-panel
authentication views): password login, logout, registration, team-invite
acceptance, password forgot/recover flow, and the two-factor (TOTP/U2F)
login step.

Conventions of the embedding:
* `request.session` is the `Session` structure; every mutation of the Django
  session dict in the source is an explicit functional update here.
* Database rows (users, team memberships, audit-log entries, invites), the
  redis cooldown store and the outbox of sent mails live in `World`.
* External collaborators (form validation, `django_otp.match_token`,
  `u2f.verify_authenticate`, `default_token_generator.check_token`,
  `u2f.start_authenticate` with its random challenge) are oracle function
  parameters; exceptions they raise are encoded in their Bool result where
  the source catches them, and as `ReqResult.exn` where the source lets them
  propagate.
* Timestamps (`time.time()`) are integers, as the source stores
  `int(time.time())`.
-/

namespace PretixAuth

/-- A user row (`pretix.base.models.User`) restricted to the fields the
authentication views read or write. -/
structure User where
  pk : Nat
  email : String
  password : String
  is_active : Bool
  require_2fa : Bool
  locale : String
  timezone : String
deriving Repr, DecidableEq

/-- An append-only audit-log entry (`user.log_action` / `team.log_action`). -/
structure AuditEntry where
  action : String
  user_pk : Option Nat
  data : List (String × String)
deriving Repr, DecidableEq

/-- A `TeamInvite` row: single-use token bound to a team and an email. -/
structure Invite where
  token : String
  team_pk : Nat
  team_name : String
  email : String
deriving Repr, DecidableEq

/-- A `U2FDevice` row restricted to the fields used by the 2FA view. -/
structure DeviceReg where
  json_data : String
  confirmed : Bool
  user_pk : Nat
deriving Repr, DecidableEq

/-- The Django session dict of one visitor; each field is one session key
used by the source (`none` = key absent). `auth_user` stands for the Django
auth machinery state written by `auth_login`. -/
structure Session where
  pretix_auth_2fa_user : Option Nat
  pretix_auth_2fa_time : Option Int
  pretix_auth_login_time : Option Int
  pretix_auth_long_session : Option Bool
  u2f_challenge : Option String
  auth_user : Option Nat
deriving Repr, DecidableEq

/-- Server-side persistent and ephemeral state: database rows, the redis
cooldown store (`none` when `settings.HAS_REDIS` is off) and sent mails.
Redis keys carry their expiry timestamp to model `SETEX`. -/
structure World where
  users : List User
  auditLog : List AuditEntry
  teamMembers : List (Nat × Nat)
  invites : List Invite
  mailsSent : List String
  redis : Option (List (String × Int))
deriving Repr, DecidableEq

/-- The subset of Django settings the views read. -/
structure Settings where
  PRETIX_LONG_SESSIONS : Bool
  PRETIX_REGISTRATION : Bool
  PRETIX_PASSWORD_RESET : Bool
  TIME_ZONE : String
deriving Repr, DecidableEq

/-- HTTP method of the request. -/
inductive Method where
  | get
  | post
deriving Repr, DecidableEq

/-- The response a view hands back to Django routing. -/
inductive HttpResponse where
  | redirect (target : String)
  | render (template : String)
deriving Repr, DecidableEq

/-- Either a normal response or an uncaught Python exception escaping the
view (`PermissionDenied`, a database error inside `transaction.atomic`,
a `KeyError` from `del` on a missing session key). -/
inductive ReqResult where
  | ok (r : HttpResponse)
  | exn (e : String)
deriving Repr, DecidableEq

/-- Outcome of a view that touches only the session: response, the session
after the request, and the `messages` shown to the visitor. -/
structure ReqOutcome where
  result : ReqResult
  session : Session
  messages : List String
deriving Repr, DecidableEq

/-- Outcome of a view that also touches persistent state. -/
structure Outcome where
  result : ReqResult
  session : Session
  world : World
  messages : List String
deriving Repr, DecidableEq

/-- Outcome of the forgot/recover views, which never write the session. -/
structure WOutcome where
  result : ReqResult
  world : World
  messages : List String
deriving Repr, DecidableEq

/-- `User.objects.get(pk=pk, is_active=True)`: `some` on a hit, `none` for
`User.DoesNotExist`. -/
def lookupActiveUser (users : List User) (pk : Nat) : Option User :=
  users.find? (fun u => u.pk == pk && u.is_active)

/-- `User.objects.get(id=i)` with no activity filter, as used by `Recover`. -/
def lookupUser (users : List User) (i : Nat) : Option User :=
  users.find? (fun u => u.pk == i)

/-- `U2FDevice.objects.filter(confirmed=True, user=self.user)`, projected to
the `json_data` wrapped by `DeviceRegistration.wrap`. -/
def confirmedDevices (devices : List DeviceReg) (u : User) : List String :=
  (devices.filter (fun d => d.confirmed && d.user_pk == u.pk)).map (fun d => d.json_data)

/-- `request.POST.get('token', '').strip().replace(' ', '')`: Python
`strip()` drops leading and trailing whitespace, `replace(' ', '')` then
drops every remaining space; on the character list this is a whitespace
trim followed by a space filter. -/
def normalizeToken (raw : String) : String :=
  String.mk
    ((((raw.data.dropWhile Char.isWhitespace).reverse.dropWhile
        Char.isWhitespace).reverse).filter (fun ch => ch != ' '))

/-- `token.startswith('{')`. -/
def startsWithBrace (token : String) : Bool :=
  match token.data with
  | [] => false
  | ch :: _ => ch == '\x7b'

/-- The generic error message of the 2FA guard. -/
def tryAgainMsg : String := "Please try again."

/-- Result of the guard in `Login2FAView.dispatch` (lines 300-315): either a
hard reset to the login page, or the request proceeds with the pending user
resolved. -/
inductive GuardOutcome where
  | redirectLogin
  | proceed (user : User)
deriving Repr, DecidableEq

/-- `Login2FAView.dispatch`: fail when the session has no
`pretix_auth_2fa_user` key, or the stored id matches no active user, or
`time.time() - int(session.get('pretix_auth_2fa_time', '1')) > 300`.
The session itself is not touched by the guard. -/
def login2faGuard (users : List User) (now : Int) (s : Session) : GuardOutcome :=
  match s.pretix_auth_2fa_user with
  | none => .redirectLogin
  | some pk =>
    match lookupActiveUser users pk with
    | none => .redirectLogin
    | some u =>
      let logintime : Int := s.pretix_auth_2fa_time.getD 1
      if now - logintime > 300 then .redirectLogin else .proceed u

/-- `Login2FAView.post` (lines 317-343), reached only behind the guard.
`u2fVerify devs challenge token appids = true` models
`u2f.verify_authenticate` returning; `false` models it raising (the source
catches every exception and leaves `valid = False`). `matchTok` models
`django_otp.match_token`. The two `del` statements are sequential; `del` on
an absent key is a `KeyError` escaping the view. -/
def login2faPost (u2fVerify : List String → String → String → List String → Bool)
    (matchTok : Nat → String → Bool) (devices : List DeviceReg) (appId : String)
    (now : Int) (nextUrl : Option String) (safeUrl : String → Bool)
    (user : User) (rawToken : String) (s : Session) : ReqOutcome :=
  let token := normalizeToken rawToken
  let step1 : Bool × Session :=
    match s.u2f_challenge, startsWithBrace token with
    | some challenge, true =>
      let s1 := { s with u2f_challenge := none }
      (u2fVerify (confirmedDevices devices user) challenge token [appId], s1)
    | some _, false => (matchTok user.pk token, s)
    | none, _ => (matchTok user.pk token, s)
  let valid := step1.1
  let s1 := step1.2
  if valid then
    let s2 := { s1 with auth_user := some user.pk, pretix_auth_login_time := some now }
    match s2.pretix_auth_2fa_user with
    | none => ⟨.exn "KeyError", s2, []⟩
    | some _ =>
      let s3 := { s2 with pretix_auth_2fa_user := none }
      match s3.pretix_auth_2fa_time with
      | none => ⟨.exn "KeyError", s3, []⟩
      | some _ =>
        let s4 := { s3 with pretix_auth_2fa_time := none }
        match nextUrl with
        | some n =>
          if safeUrl n then ⟨.ok (.redirect n), s4, []⟩
          else ⟨.ok (.redirect "control:index"), s4, []⟩
        | none => ⟨.ok (.redirect "control:index"), s4, []⟩
  else
    ⟨.ok (.redirect "control:auth.login.2fa"), s1, ["Invalid code, please try again."]⟩

/-- `Login2FAView.get` via `get_context_data` (lines 345-362): rendering the
page stores a fresh challenge (oracle `startChallenge`, absorbing
`u2f.start_authenticate` and `rand_bytes(32)`) when confirmed devices exist,
and otherwise removes any stale challenge. -/
def login2faGet (startChallenge : List String → String) (devices : List DeviceReg)
    (user : User) (s : Session) : ReqOutcome :=
  let devs := confirmedDevices devices user
  if devs.isEmpty then
    ⟨.ok (.render "pretixcontrol/auth/login_2fa.html"), { s with u2f_challenge := none }, []⟩
  else
    ⟨.ok (.render "pretixcontrol/auth/login_2fa.html"),
     { s with u2f_challenge := some (startChallenge devs) }, []⟩

/-- One full request to the 2FA endpoint: the `dispatch` guard runs first on
every request; only when it proceeds does the GET or POST handler run. -/
def login2faRequest (users : List User)
    (u2fVerify : List String → String → String → List String → Bool)
    (matchTok : Nat → String → Bool) (startChallenge : List String → String)
    (devices : List DeviceReg) (appId : String) (now : Int)
    (nextUrl : Option String) (safeUrl : String → Bool)
    (method : Method) (rawToken : String) (s : Session) : ReqOutcome :=
  match login2faGuard users now s with
  | .redirectLogin => ⟨.ok (.redirect "control:auth.login"), s, [tryAgainMsg]⟩
  | .proceed user =>
    match method with
    | .post => login2faPost u2fVerify matchTok devices appId now nextUrl safeUrl user rawToken s
    | .get => login2faGet startChallenge devices user s

/-- `login` (lines 34-66). `formUser` is `form.user_cache` after
`form.is_valid()` (`none` when the form is invalid or credentials wrong);
`keep` is `cleaned_data['keep_logged_in']`. -/
def login (st : Settings) (authed : Bool) (method : Method) (formUser : Option User)
    (keep : Bool) (now : Int) (nextUrl : Option String) (safeUrl : String → Bool)
    (s : Session) : ReqOutcome :=
  if authed then
    ⟨.ok (.redirect (nextUrl.getD "control:index")), s, []⟩
  else
    match method with
    | .post =>
      match formUser with
      | some user =>
        let s1 := { s with
          pretix_auth_long_session := some (st.PRETIX_LONG_SESSIONS && keep) }
        if user.require_2fa then
          ⟨.ok (.redirect "control:auth.login.2fa"),
           { s1 with pretix_auth_2fa_user := some user.pk,
                     pretix_auth_2fa_time := some now }, []⟩
        else
          let s2 := { s1 with auth_user := some user.pk,
                              pretix_auth_login_time := some now }
          match nextUrl with
          | some n =>
            if safeUrl n then ⟨.ok (.redirect n), s2, []⟩
            else ⟨.ok (.redirect "control:index"), s2, []⟩
          | none => ⟨.ok (.redirect "control:index"), s2, []⟩
      | none => ⟨.ok (.render "pretixcontrol/auth/login.html"), s, []⟩
    | .get => ⟨.ok (.render "pretixcontrol/auth/login.html"), s, []⟩

/-- `logout` (lines 69-75): Django logout plus the zero sentinel on the
login-time key. -/
def logout (s : Session) : ReqOutcome :=
  ⟨.ok (.redirect "control:auth.login"),
   { s with auth_user := none, pretix_auth_login_time := some 0 }, []⟩

/-- `appendAuditLog`: `log_action` appends one entry. -/
def appendAudit (w : World) (e : AuditEntry) : World :=
  { w with auditLog := w.auditLog ++ [e] }

/-- The primary key the database hands to the next created user row. -/
def freshPk (w : World) : Nat :=
  (w.users.map (fun u => u.pk)).foldr max 0 + 1

/-- `User.objects.create_user(email, password, locale=..., timezone=...)`:
a fresh primary key and an active row with defaults. -/
def create_user (w : World) (email password locale tz : String) : User × World :=
  let u : User := ⟨freshPk w, email, password, true, false, locale, tz⟩
  (u, { w with users := w.users ++ [u] })

/-- `register` (lines 78-106). `tzParam` is `request.timezone` when the
request object has one, else `settings.TIME_ZONE` is used. The feature-flag
check raises `PermissionDenied` before anything else. -/
def register (st : Settings) (authed : Bool) (method : Method) (formValid : Bool)
    (email password : String) (keep : Bool) (langCode : String)
    (tzParam : Option String) (nextUrl : Option String) (now : Int)
    (w : World) (s : Session) : Outcome :=
  if !st.PRETIX_REGISTRATION then
    ⟨.exn "PermissionDenied", s, w, []⟩
  else if authed then
    ⟨.ok (.redirect (nextUrl.getD "control:index")), s, w, []⟩
  else
    match method, formValid with
    | .post, true =>
      let tz := tzParam.getD st.TIME_ZONE
      let uw := create_user w email password langCode tz
      let u := uw.1
      let w2 := appendAudit uw.2 ⟨"pretix.control.auth.user.created", some u.pk, []⟩
      let s1 := { s with auth_user := some u.pk,
                         pretix_auth_login_time := some now,
                         pretix_auth_long_session :=
                           some (st.PRETIX_LONG_SESSIONS && keep) }
      ⟨.ok (.redirect "control:index"), s1, w2, []⟩
    | _, _ => ⟨.ok (.render "pretixcontrol/auth/register.html"), s, w, []⟩

/-- The action name of the team-join audit entry. -/
def joinedAction : String := "pretix.team.member.joined"

/-- The body of the `transaction.atomic()` block of `invite` (lines 128-137
and 157-166): add the member, write the join audit entry, delete the
invite, in that order. `failStep = some i` models the i-th database
statement raising. -/
def inviteTx (failStep : Option (Fin 3)) (inv : Invite) (userPk : Nat)
    (userEmail : String) (w : World) : Except String World :=
  if failStep = some 0 then .error "DatabaseError"
  else
    let w1 := { w with teamMembers := w.teamMembers ++ [(inv.team_pk, userPk)] }
    if failStep = some 1 then .error "DatabaseError"
    else
      let w2 := appendAudit w1 ⟨joinedAction, none,
        [("email", userEmail), ("invite_email", inv.email), ("user", toString userPk)]⟩
      if failStep = some 2 then .error "DatabaseError"
      else .ok { w2 with invites := w2.invites.filter (fun i => i.token != inv.token) }

/-- `invite` (lines 109-172). `transaction.atomic` semantics: when the body
raises, every write of the body is rolled back, so the world observable
after the failed request is the world from just before the block, and the
exception escapes the view. Writes made before the block (user creation,
its audit entry, the login session) are in autocommit mode and persist. -/
def invite (st : Settings) (token : String) (authedUser : Option User)
    (method : Method) (formValid : Bool) (formEmail formPassword : String)
    (keep : Bool) (langCode : String) (tzParam : Option String) (now : Int)
    (failStep : Option (Fin 3)) (w : World) (s : Session) : Outcome :=
  match w.invites.find? (fun i => i.token == token) with
  | none =>
    ⟨.ok (.redirect "control:auth.login"), s, w,
     ["You used an invalid link. Please copy the link from your email to the address bar and make sure it is correct and that the link has not been used before."]⟩
  | some inv =>
    match authedUser with
    | some user =>
      if w.teamMembers.contains (inv.team_pk, user.pk) then
        ⟨.ok (.redirect "control:index"), s, w,
         ["You cannot accept the invitation for " ++ inv.team_name ++ " as you already are part of this team."]⟩
      else
        match inviteTx failStep inv user.pk user.email w with
        | .ok w2 =>
          ⟨.ok (.redirect "control:index"), s, w2,
           ["You are now part of the team " ++ inv.team_name ++ "."]⟩
        | .error e => ⟨.exn e, s, w, []⟩
    | none =>
      match method, formValid with
      | .post, true =>
        let tz := tzParam.getD st.TIME_ZONE
        let uw := create_user w formEmail formPassword langCode tz
        let u := uw.1
        let w2 := appendAudit uw.2 ⟨"pretix.control.auth.user.created", some u.pk, []⟩
        let s1 := { s with auth_user := some u.pk,
                           pretix_auth_login_time := some now,
                           pretix_auth_long_session :=
                             some (st.PRETIX_LONG_SESSIONS && keep) }
        match inviteTx failStep inv u.pk u.email w2 with
        | .ok w3 =>
          ⟨.ok (.redirect "control:index"), s1, w3,
           ["Welcome to pretix! You are now part of the team " ++ inv.team_name ++ "."]⟩
        | .error e => ⟨.exn e, s1, w2, []⟩
      | _, _ => ⟨.ok (.render "pretixcontrol/auth/invite.html"), s, w, []⟩

/-- `rc.exists(k)` under redis expiry semantics: the key exists while the
current time is before its stored expiry. -/
def redisExists (rc : List (String × Int)) (now : Int) (k : String) : Bool :=
  rc.any (fun p => p.1 == k && now < p.2)

/-- `rc.setex(k, ttl, '1')`: store the key with expiry `now + ttl`. -/
def redisSetex (rc : List (String × Int)) (now : Int) (k : String) (ttl : Int) :
    List (String × Int) :=
  (k, now + ttl) :: rc.filter (fun p => p.1 != k)

/-- The redis cooldown key `'pretix_pwreset_%s' % user.id`. -/
def cooldownKey (pk : Nat) : String := "pretix_pwreset_" ++ toString pk

/-- The mail-then-log tail of `Forgot.post` (lines 202-218): attempt the
recovery mail; `SendMailException` (modelled by `mailOk = false`) shows a
retry error and re-renders; otherwise the mail is recorded as sent and the
`mail_sent` audit entry written. -/
def forgotSend (user : User) (mailOk : Bool) (w : World) : WOutcome :=
  if mailOk then
    let w1 := { w with mailsSent := w.mailsSent ++ [user.email] }
    let w2 := appendAudit w1
      ⟨"pretix.control.auth.user.forgot_password.mail_sent", some user.pk, []⟩
    ⟨.ok (.redirect "control:auth.forgot"), w2,
     ["We sent you an e-mail containing further instructions."]⟩
  else
    ⟨.ok (.render "pretixcontrol/auth/forgot.html"), w,
     ["There was an error sending the mail. Please try again later."]⟩

/-- `Forgot.dispatch` + `Forgot.post` (lines 178-220). `formUser` is
`form.cleaned_data['user']` when the form validates, `none` otherwise.
`w.redis = none` models `settings.HAS_REDIS` off: the whole cooldown block
is skipped. -/
def forgotPost (resetEnabled : Bool) (formUser : Option User) (mailOk : Bool)
    (now : Int) (w : World) : WOutcome :=
  if !resetEnabled then ⟨.exn "PermissionDenied", w, []⟩
  else
    match formUser with
    | none => ⟨.ok (.render "pretixcontrol/auth/forgot.html"), w, []⟩
    | some user =>
      match w.redis with
      | some rc =>
        if redisExists rc now (cooldownKey user.pk) then
          let w1 := appendAudit w
            ⟨"pretix.control.auth.user.forgot_password.denied.repeated", some user.pk, []⟩
          ⟨.ok (.redirect "control:auth.forgot"), w1,
           ["We already sent you an email in the last 24 hours."]⟩
        else
          let w1 := { w with redis := some (redisSetex rc now (cooldownKey user.pk) (3600 * 24)) }
          forgotSend user mailOk w1
      | none => forgotSend user mailOk w

/-- `Recover.error_messages['invalid']`. -/
def recoverInvalidMsg : String :=
  "You clicked on an invalid link. Please check that you copied the full web address into your address bar. Please note that the link is only valid for three days and that the link can only be used once."

/-- `Recover.error_messages['unknownuser']`. -/
def recoverUnknownUserMsg : String :=
  "We were unable to find the user you requested a new password for."

/-- `user.set_password(...)` followed by `user.save()`. -/
def setPassword (w : World) (pk : Nat) (password : String) : World :=
  { w with users := w.users.map (fun u =>
      if u.pk == pk then { u with password := password } else u) }

/-- `Recover.dispatch` + `Recover.get` (lines 242-260): flag check, then the
already-authenticated redirect, then id lookup and token check, each failure
routed through `Recover.invalid`. `checkToken pk tok` models
`default_token_generator.check_token(user, tok)`. -/
def recoverGet (resetEnabled : Bool) (authed : Bool) (reqId : Option Nat)
    (reqToken : String) (checkToken : Nat → String → Bool)
    (nextUrl : Option String) (w : World) : WOutcome :=
  if !resetEnabled then ⟨.exn "PermissionDenied", w, []⟩
  else if authed then ⟨.ok (.redirect (nextUrl.getD "control:index")), w, []⟩
  else
    match reqId.bind (lookupUser w.users) with
    | none => ⟨.ok (.redirect "control:auth.forgot"), w, [recoverUnknownUserMsg]⟩
    | some user =>
      if !checkToken user.pk reqToken then
        ⟨.ok (.redirect "control:auth.forgot"), w, [recoverInvalidMsg]⟩
      else ⟨.ok (.render "pretixcontrol/auth/recover.html"), w, []⟩

/-- `Recover.dispatch` + `Recover.post` (lines 242-276): on a valid form,
re-look up the user and re-check the token; on success set the new
password, write the `recovered` audit entry and redirect to login. An
invalid form falls back to `self.get`. -/
def recoverPost (resetEnabled : Bool) (authed : Bool) (reqId : Option Nat)
    (reqToken : String) (checkToken : Nat → String → Bool) (formValid : Bool)
    (newPassword : String) (nextUrl : Option String) (w : World) : WOutcome :=
  if !resetEnabled then ⟨.exn "PermissionDenied", w, []⟩
  else if formValid then
    match reqId.bind (lookupUser w.users) with
    | none => ⟨.ok (.redirect "control:auth.forgot"), w, [recoverUnknownUserMsg]⟩
    | some user =>
      if !checkToken user.pk reqToken then
        ⟨.ok (.redirect "control:auth.forgot"), w, [recoverInvalidMsg]⟩
      else
        let w1 := setPassword w user.pk newPassword
        let w2 := appendAudit w1
          ⟨"pretix.control.auth.user.forgot_password.recovered", some user.pk, []⟩
        ⟨.ok (.redirect "control:auth.login"), w2,
         ["You can now login using your new password."]⟩
  else recoverGet resetEnabled authed reqId reqToken checkToken nextUrl w

/-! ### Helper lemmas about the 2FA guard and handlers -/

theorem guard_redirect_of_missing (users : List User) (now : Int) (s : Session)
    (h : s.pretix_auth_2fa_user = none) :
    login2faGuard users now s = .redirectLogin := by
  unfold login2faGuard
  rw [h]

theorem guard_redirect_of_noActive (users : List User) (now : Int) (s : Session) (pk : Nat)
    (h : s.pretix_auth_2fa_user = some pk) (h2 : lookupActiveUser users pk = none) :
    login2faGuard users now s = .redirectLogin := by
  unfold login2faGuard
  rw [h]
  simp [h2]

theorem guard_redirect_of_expired (users : List User) (now : Int) (s : Session)
    (h : 300 < now - s.pretix_auth_2fa_time.getD 1) :
    login2faGuard users now s = .redirectLogin := by
  unfold login2faGuard
  cases hu : s.pretix_auth_2fa_user with
  | none => rfl
  | some pk =>
    cases hl : lookupActiveUser users pk with
    | none => simp [hl]
    | some u => simp [hl, h]

theorem login2faRequest_of_guardFail (users : List User)
    (u2fVerify : List String → String → String → List String → Bool)
    (matchTok : Nat → String → Bool) (startChallenge : List String → String)
    (devices : List DeviceReg) (appId : String) (now : Int)
    (nextUrl : Option String) (safeUrl : String → Bool)
    (method : Method) (rawToken : String) (s : Session)
    (h : login2faGuard users now s = .redirectLogin) :
    login2faRequest users u2fVerify matchTok startChallenge devices appId now
        nextUrl safeUrl method rawToken s
      = ⟨.ok (.redirect "control:auth.login"), s, [tryAgainMsg]⟩ := by
  unfold login2faRequest
  rw [h]

theorem login2faPost_success_session
    (u2fVerify : List String → String → String → List String → Bool)
    (matchTok : Nat → String → Bool) (devices : List DeviceReg) (appId : String)
    (now : Int) (nextUrl : Option String) (safeUrl : String → Bool)
    (user : User) (rawToken : String) (s : Session) (pk : Nat) (t : Int)
    (hb : startsWithBrace (normalizeToken rawToken) = false)
    (hv : matchTok user.pk (normalizeToken rawToken) = true)
    (hu : s.pretix_auth_2fa_user = some pk)
    (htm : s.pretix_auth_2fa_time = some t) :
    (login2faPost u2fVerify matchTok devices appId now nextUrl safeUrl user rawToken s).session
      = { s with auth_user := some user.pk, pretix_auth_login_time := some now,
                 pretix_auth_2fa_user := none, pretix_auth_2fa_time := none } := by
  unfold login2faPost
  cases hc : s.u2f_challenge with
  | none =>
    simp only [hc, hb, hv, hu, htm]
    cases nextUrl with
    | none => simp
    | some n => cases hs : safeUrl n <;> simp [hs]
  | some c =>
    simp only [hc, hb, hv, hu, htm]
    cases nextUrl with
    | none => simp
    | some n => cases hs : safeUrl n <;> simp [hs]

theorem login2faPost_success_result
    (u2fVerify : List String → String → String → List String → Bool)
    (matchTok : Nat → String → Bool) (devices : List DeviceReg) (appId : String)
    (now : Int) (safeUrl : String → Bool)
    (user : User) (rawToken : String) (s : Session) (pk : Nat) (t : Int)
    (hb : startsWithBrace (normalizeToken rawToken) = false)
    (hv : matchTok user.pk (normalizeToken rawToken) = true)
    (hu : s.pretix_auth_2fa_user = some pk)
    (htm : s.pretix_auth_2fa_time = some t) :
    (login2faPost u2fVerify matchTok devices appId now none safeUrl user rawToken s).result
      = .ok (.redirect "control:index") := by
  unfold login2faPost
  cases hc : s.u2f_challenge with
  | none =>
    simp only [hc, hb, hv, hu, htm]
    simp
  | some c =>
    simp only [hc, hb, hv, hu, htm]
    simp

/-! ### Claims -/

/-- C1: every request (GET or POST) to the 2FA endpoint whose session has an
expired pending timestamp, or no pending user id, or a pending id matching
no active user, is answered by the generic error and a redirect to the login
entry point, the session untouched, for every submitted token and every
verification oracle: the second-factor verification step is never
reached. -/
theorem c1_twofa_guard_rejects (users : List User)
    (u2fVerify : List String → String → String → List String → Bool)
    (matchTok : Nat → String → Bool) (startChallenge : List String → String)
    (devices : List DeviceReg) (appId : String) (now : Int)
    (nextUrl : Option String) (safeUrl : String → Bool)
    (method : Method) (rawToken : String) (s : Session)
    (h : 300 < now - s.pretix_auth_2fa_time.getD 1
       ∨ s.pretix_auth_2fa_user = none
       ∨ (∀ pk, s.pretix_auth_2fa_user = some pk → lookupActiveUser users pk = none)) :
    login2faRequest users u2fVerify matchTok startChallenge devices appId now
        nextUrl safeUrl method rawToken s
      = ⟨.ok (.redirect "control:auth.login"), s, [tryAgainMsg]⟩ := by
  refine login2faRequest_of_guardFail users u2fVerify matchTok startChallenge devices appId
    now nextUrl safeUrl method rawToken s ?_
  rcases h with h | h | h
  · exact guard_redirect_of_expired users now s h
  · exact guard_redirect_of_missing users now s h
  · cases hu : s.pretix_auth_2fa_user with
    | none => exact guard_redirect_of_missing users now s hu
    | some pk => exact guard_redirect_of_noActive users now s pk hu (h pk hu)

/-- Witness for C1 at a concrete input: a session with no pending user id. -/
theorem c1_twofa_guard_rejects_witness :
    login2faRequest [] (fun _ _ _ _ => true) (fun _ _ => true) (fun _ => "c") [] "app" 1000
        none (fun _ => true) .post "123456" ⟨none, none, none, none, none, none⟩
      = ⟨.ok (.redirect "control:auth.login"), ⟨none, none, none, none, none, none⟩,
         [tryAgainMsg]⟩ :=
  c1_twofa_guard_rejects [] (fun _ _ _ _ => true) (fun _ _ => true) (fun _ => "c") [] "app"
    1000 none (fun _ => true) .post "123456" ⟨none, none, none, none, none, none⟩
    (Or.inr (Or.inl rfl))

/-- C10: a session holding a pending user id but no pending timestamp makes
the guard read the sentinel `'1'`, so (at any real clock value, here any
`now` past 301) the elapsed-time check fires and the request is redirected
to the login page without reaching verification. -/
theorem c10_missing_timestamp_rejected (users : List User)
    (u2fVerify : List String → String → String → List String → Bool)
    (matchTok : Nat → String → Bool) (startChallenge : List String → String)
    (devices : List DeviceReg) (appId : String) (now : Int)
    (nextUrl : Option String) (safeUrl : String → Bool)
    (method : Method) (rawToken : String) (s : Session) (pk : Nat)
    (_hu : s.pretix_auth_2fa_user = some pk)
    (htm : s.pretix_auth_2fa_time = none)
    (hnow : 301 < now) :
    login2faRequest users u2fVerify matchTok startChallenge devices appId now
        nextUrl safeUrl method rawToken s
      = ⟨.ok (.redirect "control:auth.login"), s, [tryAgainMsg]⟩ := by
  refine login2faRequest_of_guardFail users u2fVerify matchTok startChallenge devices appId
    now nextUrl safeUrl method rawToken s ?_
  apply guard_redirect_of_expired
  rw [htm]
  simp only [Option.getD]
  omega

/-- Witness for C10: pending id `7`, no timestamp, clock at 1000. -/
theorem c10_missing_timestamp_rejected_witness :
    login2faRequest [⟨7, "a@example.org", "pw", true, true, "en", "UTC"⟩]
        (fun _ _ _ _ => true) (fun _ _ => true) (fun _ => "c") [] "app" 1000
        none (fun _ => true) .post "123456" ⟨some 7, none, none, none, none, none⟩
      = ⟨.ok (.redirect "control:auth.login"), ⟨some 7, none, none, none, none, none⟩,
         [tryAgainMsg]⟩ :=
  c10_missing_timestamp_rejected [⟨7, "a@example.org", "pw", true, true, "en", "UTC"⟩]
    (fun _ _ _ _ => true) (fun _ _ => true) (fun _ => "c") [] "app" 1000
    none (fun _ => true) .post "123456" ⟨some 7, none, none, none, none, none⟩ 7
    rfl rfl (by decide)

/-- C3: whenever a hardware challenge is stored in the session and the
submitted token is structurally a challenge-response object (starts with a
brace after normalization), one POST to the 2FA endpoint that passes the
guard leaves the session without the stored challenge — for every
verification oracle, so on success, failure and exception alike the
challenge is single-use. -/
theorem c3_challenge_single_use (users : List User)
    (u2fVerify : List String → String → String → List String → Bool)
    (matchTok : Nat → String → Bool) (startChallenge : List String → String)
    (devices : List DeviceReg) (appId : String) (now : Int)
    (nextUrl : Option String) (safeUrl : String → Bool)
    (rawToken : String) (s : Session) (user : User) (c : String)
    (hg : login2faGuard users now s = .proceed user)
    (hc : s.u2f_challenge = some c)
    (ht : startsWithBrace (normalizeToken rawToken) = true) :
    (login2faRequest users u2fVerify matchTok startChallenge devices appId now
        nextUrl safeUrl .post rawToken s).session.u2f_challenge = none := by
  unfold login2faRequest
  rw [hg]
  unfold login2faPost
  simp only [hc, ht]
  cases hval : u2fVerify (confirmedDevices devices user) c (normalizeToken rawToken) [appId] with
  | false => simp [hval]
  | true =>
    simp only [hval]
    cases hu : s.pretix_auth_2fa_user with
    | none => simp
    | some pk =>
      simp only
      cases htm : s.pretix_auth_2fa_time with
      | none => simp
      | some t =>
        cases nextUrl with
        | none => simp
        | some n => cases hs : safeUrl n <;> simp [hs]

/-- Witness for C3: a pending session with a stored challenge and a
challenge-shaped token; the oracle reports failure. -/
theorem c3_challenge_single_use_witness :
    (login2faRequest [⟨7, "a@example.org", "pw", true, true, "en", "UTC"⟩]
        (fun _ _ _ _ => false) (fun _ _ => false) (fun _ => "c") [] "app" 100
        none (fun _ => true) .post "\x7b\x22a\x22:1\x7d"
        ⟨some 7, some 50, none, none, some "chal", none⟩).session.u2f_challenge = none :=
  c3_challenge_single_use [⟨7, "a@example.org", "pw", true, true, "en", "UTC"⟩]
    (fun _ _ _ _ => false) (fun _ _ => false) (fun _ => "c") [] "app" 100
    none (fun _ => true) "\x7b\x22a\x22:1\x7d"
    ⟨some 7, some 50, none, none, some "chal", none⟩
    ⟨7, "a@example.org", "pw", true, true, "en", "UTC"⟩ "chal"
    (by decide) rfl (by decide)

/-- Concrete expired pending session used to refute C2: id stored, pending
timestamp 0, clock at 1000 (far past the 300-second window). -/
def expiredSession : Session := ⟨some 7, some 0, none, none, none, none⟩

/-- The active, 2FA-requiring user behind the pending session. -/
def demoUser : User := ⟨7, "a@example.org", "pw", true, true, "en", "UTC"⟩

/-- Counterexample to C2: when the guard finds the pending state expired it
redirects to the login page but deletes neither the pending user id nor the
pending timestamp — both keys survive in the session, contradicting the
claim that expiry clears them together with the id. -/
theorem c2_counterexample :
    (login2faRequest [demoUser] (fun _ _ _ _ => true) (fun _ _ => true) (fun _ => "c")
        [] "app" 1000 none (fun _ => true) .get "" expiredSession).result
      = .ok (.redirect "control:auth.login")
    ∧ (login2faRequest [demoUser] (fun _ _ _ _ => true) (fun _ _ => true) (fun _ => "c")
        [] "app" 1000 none (fun _ => true) .get "" expiredSession).session.pretix_auth_2fa_user
      = some 7
    ∧ (login2faRequest [demoUser] (fun _ _ _ _ => true) (fun _ _ => true) (fun _ => "c")
        [] "app" 1000 none (fun _ => true) .get "" expiredSession).session.pretix_auth_2fa_time
      = some 0 := by
  refine ⟨?_, ?_, ?_⟩ <;> rfl

/-- C2 as amended: the pending user id and pending timestamp are removed
from the session together when the pending state is consumed by a
successful second-factor verification; when the guard finds the pending
state expired (or otherwise invalid) it redirects but leaves the session
unchanged, so both keys remain in place together. -/
theorem c2_amended_pending_keys (users : List User)
    (u2fVerify : List String → String → String → List String → Bool)
    (matchTok : Nat → String → Bool) (startChallenge : List String → String)
    (devices : List DeviceReg) (appId : String) (now : Int)
    (nextUrl : Option String) (safeUrl : String → Bool)
    (method : Method) (rawToken : String) (s : Session) (user : User) (pk : Nat) (t : Int) :
    (login2faGuard users now s = .redirectLogin →
      (login2faRequest users u2fVerify matchTok startChallenge devices appId now
          nextUrl safeUrl method rawToken s).session = s)
    ∧ (login2faGuard users now s = .proceed user →
       s.pretix_auth_2fa_user = some pk →
       s.pretix_auth_2fa_time = some t →
       startsWithBrace (normalizeToken rawToken) = false →
       matchTok user.pk (normalizeToken rawToken) = true →
       (login2faRequest users u2fVerify matchTok startChallenge devices appId now
           nextUrl safeUrl .post rawToken s).session.pretix_auth_2fa_user = none
       ∧ (login2faRequest users u2fVerify matchTok startChallenge devices appId now
           nextUrl safeUrl .post rawToken s).session.pretix_auth_2fa_time = none) := by
  constructor
  · intro h
    rw [login2faRequest_of_guardFail users u2fVerify matchTok startChallenge devices appId
      now nextUrl safeUrl method rawToken s h]
  · intro hg hu htm hb hv
    have hsess := login2faPost_success_session u2fVerify matchTok devices appId now
      nextUrl safeUrl user rawToken s pk t hb hv hu htm
    unfold login2faRequest
    rw [hg]
    simp only [hsess]
    exact ⟨trivial, trivial⟩

/-- Witness for C2 as amended: the guard-fail half at the expired session of
the counterexample, and the consumption half at a fresh pending session with
a valid one-time code. -/
theorem c2_amended_pending_keys_witness :
    (login2faRequest [demoUser] (fun _ _ _ _ => true) (fun _ _ => true) (fun _ => "c")
        [] "app" 1000 none (fun _ => true) .get "" expiredSession).session = expiredSession
    ∧ ((login2faRequest [demoUser] (fun _ _ _ _ => true) (fun _ _ => true) (fun _ => "c")
        [] "app" 100 none (fun _ => true) .post "123456"
        ⟨some 7, some 50, none, none, none, none⟩).session.pretix_auth_2fa_user = none
      ∧ (login2faRequest [demoUser] (fun _ _ _ _ => true) (fun _ _ => true) (fun _ => "c")
        [] "app" 100 none (fun _ => true) .post "123456"
        ⟨some 7, some 50, none, none, none, none⟩).session.pretix_auth_2fa_time = none) :=
  ⟨(c2_amended_pending_keys [demoUser] (fun _ _ _ _ => true) (fun _ _ => true) (fun _ => "c")
      [] "app" 1000 none (fun _ => true) .get "" expiredSession demoUser 7 0).1
    (by decide),
   (c2_amended_pending_keys [demoUser] (fun _ _ _ _ => true) (fun _ _ => true) (fun _ => "c")
      [] "app" 100 none (fun _ => true) .post "123456"
      ⟨some 7, some 50, none, none, none, none⟩ demoUser 7 50).2
    (by decide) rfl rfl (by decide) rfl⟩

/-- C8: after a password login that pends 2FA, a successful second-factor
verification moves the session to authenticated: the pending user id and
pending timestamp are deleted, the login timestamp is set to the time of
the 2FA request, the user is logged in, and the long-session flag written
at the password step (the `PRETIX_LONG_SESSIONS`-and-`keep_logged_in`
conjunction) is carried through unmodified. -/
theorem c8_success_transition (st : Settings) (users : List User)
    (u2fVerify : List String → String → String → List String → Bool)
    (matchTok : Nat → String → Bool) (startChallenge : List String → String)
    (devices : List DeviceReg) (appId : String) (safeUrl : String → Bool)
    (user : User) (keep : Bool) (now1 now2 : Int) (rawToken : String) (s0 : Session)
    (hfind : lookupActiveUser users user.pk = some user)
    (h2fa : user.require_2fa = true)
    (hwindow : now2 - now1 ≤ 300)
    (hb : startsWithBrace (normalizeToken rawToken) = false)
    (hv : matchTok user.pk (normalizeToken rawToken) = true) :
    (login st false .post (some user) keep now1 none safeUrl s0).session.pretix_auth_long_session
      = some (st.PRETIX_LONG_SESSIONS && keep)
    ∧ (login2faRequest users u2fVerify matchTok startChallenge devices appId now2
        none safeUrl .post rawToken
        (login st false .post (some user) keep now1 none safeUrl s0).session)
      = ⟨.ok (.redirect "control:index"),
         { s0 with pretix_auth_2fa_user := none,
                   pretix_auth_2fa_time := none,
                   pretix_auth_login_time := some now2,
                   pretix_auth_long_session := some (st.PRETIX_LONG_SESSIONS && keep),
                   auth_user := some user.pk }, []⟩ := by
  have hs1 : (login st false .post (some user) keep now1 none safeUrl s0).session
      = { s0 with pretix_auth_long_session := some (st.PRETIX_LONG_SESSIONS && keep),
                  pretix_auth_2fa_user := some user.pk,
                  pretix_auth_2fa_time := some now1 } := by
    unfold login
    simp [h2fa]
  refine ⟨by rw [hs1], ?_⟩
  rw [hs1]
  have hguard : login2faGuard users now2
      { s0 with pretix_auth_long_session := some (st.PRETIX_LONG_SESSIONS && keep),
                pretix_auth_2fa_user := some user.pk,
                pretix_auth_2fa_time := some now1 } = .proceed user := by
    unfold login2faGuard
    simp only [hfind]
    simp only [Option.getD]
    rw [if_neg]
    omega
  have hreq : login2faRequest users u2fVerify matchTok startChallenge devices appId now2
      none safeUrl .post rawToken
      { s0 with pretix_auth_long_session := some (st.PRETIX_LONG_SESSIONS && keep),
                pretix_auth_2fa_user := some user.pk,
                pretix_auth_2fa_time := some now1 }
      = login2faPost u2fVerify matchTok devices appId now2 none safeUrl user rawToken
      { s0 with pretix_auth_long_session := some (st.PRETIX_LONG_SESSIONS && keep),
                pretix_auth_2fa_user := some user.pk,
                pretix_auth_2fa_time := some now1 } := by
    unfold login2faRequest
    rw [hguard]
  rw [hreq]
  have hsess := login2faPost_success_session u2fVerify matchTok devices appId now2
    none safeUrl user rawToken
    { s0 with pretix_auth_long_session := some (st.PRETIX_LONG_SESSIONS && keep),
              pretix_auth_2fa_user := some user.pk,
              pretix_auth_2fa_time := some now1 } user.pk now1 hb hv rfl rfl
  have hres := login2faPost_success_result u2fVerify matchTok devices appId now2
    safeUrl user rawToken
    { s0 with pretix_auth_long_session := some (st.PRETIX_LONG_SESSIONS && keep),
              pretix_auth_2fa_user := some user.pk,
              pretix_auth_2fa_time := some now1 } user.pk now1 hb hv rfl rfl
  have hmsg : (login2faPost u2fVerify matchTok devices appId now2 none safeUrl user rawToken
      { s0 with pretix_auth_long_session := some (st.PRETIX_LONG_SESSIONS && keep),
                pretix_auth_2fa_user := some user.pk,
                pretix_auth_2fa_time := some now1 }).messages = [] := by
    unfold login2faPost
    cases hc : s0.u2f_challenge with
    | none => simp [hc, hb, hv]
    | some c => simp [hc, hb, hv]
  cases hpost : login2faPost u2fVerify matchTok devices appId now2 none safeUrl user rawToken
      { s0 with pretix_auth_long_session := some (st.PRETIX_LONG_SESSIONS && keep),
                pretix_auth_2fa_user := some user.pk,
                pretix_auth_2fa_time := some now1 } with
  | mk r sess msgs =>
    rw [hpost] at hsess hres hmsg
    simp only at hsess hres hmsg
    rw [hsess, hres, hmsg]

/-- Witness for C8: user 7 logs in with the long-session preference, then
submits a valid one-time code 100 seconds later. -/
theorem c8_success_transition_witness :
    (login ⟨true, true, true, "UTC"⟩ false .post (some demoUser) true 50 none (fun _ => true)
        ⟨none, none, none, none, none, none⟩).session.pretix_auth_long_session = some true
    ∧ (login2faRequest [demoUser] (fun _ _ _ _ => true) (fun _ _ => true) (fun _ => "c")
        [] "app" 150 none (fun _ => true) .post "123456"
        (login ⟨true, true, true, "UTC"⟩ false .post (some demoUser) true 50 none
          (fun _ => true) ⟨none, none, none, none, none, none⟩).session)
      = ⟨.ok (.redirect "control:index"),
         ⟨none, none, some 150, some true, none, some 7⟩, []⟩ :=
  c8_success_transition ⟨true, true, true, "UTC"⟩ [demoUser] (fun _ _ _ _ => true)
    (fun _ _ => true) (fun _ => "c") [] "app" (fun _ => true) demoUser true 50 150 "123456"
    ⟨none, none, none, none, none, none⟩ rfl rfl (by decide) (by decide) rfl

/-- C7: with the registration feature flag off, every request to the
registration endpoint — any method, any form content — raises
`PermissionDenied` (a permission error, not a not-found), and neither the
stored users nor anything else in the world nor the session changes: the
flag check runs before any form processing or user creation. -/
theorem c7_registration_disabled (st : Settings) (authed : Bool) (method : Method)
    (formValid : Bool) (email password : String) (keep : Bool) (langCode : String)
    (tzParam : Option String) (nextUrl : Option String) (now : Int)
    (w : World) (s : Session)
    (hflag : st.PRETIX_REGISTRATION = false) :
    register st authed method formValid email password keep langCode tzParam nextUrl now w s
      = ⟨.exn "PermissionDenied", s, w, []⟩ := by
  unfold register
  simp [hflag]

/-- Witness for C7: a POST with a valid form against a world with no users;
the outcome is the permission error and the world keeps zero users. -/
theorem c7_registration_disabled_witness :
    register ⟨true, false, true, "UTC"⟩ false .post true "a@example.org" "pw" true "en"
        none none 100 ⟨[], [], [], [], [], none⟩ ⟨none, none, none, none, none, none⟩
      = ⟨.exn "PermissionDenied", ⟨none, none, none, none, none, none⟩,
         ⟨[], [], [], [], [], none⟩, []⟩ :=
  c7_registration_disabled ⟨true, false, true, "UTC"⟩ false .post true "a@example.org" "pw"
    true "en" none none 100 ⟨[], [], [], [], [], none⟩ ⟨none, none, none, none, none, none⟩ rfl

/-- World for the C4 counterexample: a single user with pk 1. -/
def recoverWorld : World :=
  ⟨[⟨1, "a@example.org", "oldpw", true, false, "en", "UTC"⟩], [], [], [], [], none⟩

/-- Counterexample to C4: a reset-confirm submission naming an unknown user
id (2) and one naming the existing user (1) with a token that fails
validation do NOT produce indistinguishable responses: the source shows the
`unknownuser` message in the first case and the `invalid` message in the
second, so the visitor can tell which failure occurred. -/
theorem c4_counterexample :
    ¬ ((recoverPost true false (some 2) "tok" (fun _ _ => false) true "newpw" none
          recoverWorld).result
        = (recoverPost true false (some 1) "tok" (fun _ _ => false) true "newpw" none
          recoverWorld).result
      ∧ (recoverPost true false (some 2) "tok" (fun _ _ => false) true "newpw" none
          recoverWorld).messages
        = (recoverPost true false (some 1) "tok" (fun _ _ => false) true "newpw" none
          recoverWorld).messages) := by
  decide

/-- C4 as amended: both reset-confirm failure cases — unknown user id, and
token failing validation for the matched user — redirect to the same forgot
page with exactly one error message and leave every stored user (hence
every password) unchanged; but the error messages are the two distinct
texts `unknownuser` and `invalid`, so the visitor can distinguish the
cases. This also covers the scenario of a token valid only for another
user: its `check_token` is `false` for the submitted id, so the password
stays unchanged. -/
theorem c4_amended_recover_failures (authed : Bool) (reqId : Option Nat)
    (reqToken : String) (checkToken : Nat → String → Bool)
    (newPassword : String) (nextUrl : Option String) (w : World) :
    (reqId.bind (lookupUser w.users) = none →
      recoverPost true authed reqId reqToken checkToken true newPassword nextUrl w
        = ⟨.ok (.redirect "control:auth.forgot"), w, [recoverUnknownUserMsg]⟩)
    ∧ (∀ user, reqId.bind (lookupUser w.users) = some user →
        checkToken user.pk reqToken = false →
        recoverPost true authed reqId reqToken checkToken true newPassword nextUrl w
          = ⟨.ok (.redirect "control:auth.forgot"), w, [recoverInvalidMsg]⟩) := by
  constructor
  · intro h
    unfold recoverPost
    rw [h]
    rfl
  · intro user h hc
    unfold recoverPost
    rw [h]
    simp [hc]

/-- Witness for C4 as amended, at the counterexample inputs. -/
theorem c4_amended_recover_failures_witness :
    recoverPost true false (some 2) "tok" (fun _ _ => false) true "newpw" none recoverWorld
      = ⟨.ok (.redirect "control:auth.forgot"), recoverWorld, [recoverUnknownUserMsg]⟩
    ∧ recoverPost true false (some 1) "tok" (fun _ _ => false) true "newpw" none recoverWorld
      = ⟨.ok (.redirect "control:auth.forgot"), recoverWorld, [recoverInvalidMsg]⟩ :=
  ⟨(c4_amended_recover_failures false (some 2) "tok" (fun _ _ => false) "newpw" none
      recoverWorld).1 (by decide),
   (c4_amended_recover_failures false (some 1) "tok" (fun _ _ => false) "newpw" none
      recoverWorld).2 ⟨1, "a@example.org", "oldpw", true, false, "en", "UTC"⟩
      (by decide) rfl⟩

/-- The invite row carrying this token, when still present
(`TeamInvite.objects.get(token=token)`). -/
def findInvite (w : World) (tok : String) : Option Invite :=
  w.invites.find? (fun i => i.token == tok)

/-- The member-joined entries of the audit log. -/
def joinedLog (w : World) : List AuditEntry :=
  w.auditLog.filter (fun e => e.action == joinedAction)

/-- All-or-nothing observation of the invite transaction relative to the
pre-request world `w`: either the membership is present, the join log grew
by one entry and the invite is gone; or memberships, join log and the
looked-up invite are exactly as before. -/
def allOrNothing (w w2 : World) (inv : Invite) (upk : Nat) : Prop :=
  ((inv.team_pk, upk) ∈ w2.teamMembers
    ∧ (joinedLog w2).length = (joinedLog w).length + 1
    ∧ findInvite w2 inv.token = none)
  ∨ (w2.teamMembers = w.teamMembers
    ∧ joinedLog w2 = joinedLog w
    ∧ findInvite w2 inv.token = findInvite w inv.token)

theorem created_not_joined :
    (("pretix.control.auth.user.created" : String) == joinedAction) = false := by
  decide

theorem inviteTx_fail (i : Fin 3) (inv : Invite) (upk : Nat) (em : String) (w : World) :
    inviteTx (some i) inv upk em w = .error "DatabaseError" := by
  fin_cases i <;> simp [inviteTx]

theorem inviteTx_ok (inv : Invite) (upk : Nat) (em : String) (w : World) :
    inviteTx none inv upk em w
      = .ok { w with teamMembers := w.teamMembers ++ [(inv.team_pk, upk)],
                     auditLog := w.auditLog ++ [⟨joinedAction, none,
                       [("email", em), ("invite_email", inv.email),
                        ("user", toString upk)]⟩],
                     invites := w.invites.filter (fun i => i.token != inv.token) } := by
  rfl

theorem commit_allOrNothing (w : World) (inv : Invite) (upk : Nat) (em : String)
    (baseLog : List AuditEntry) (newUsers : List User)
    (hbase : baseLog.filter (fun e => e.action == joinedAction)
      = w.auditLog.filter (fun e => e.action == joinedAction)) :
    allOrNothing w
      { w with users := newUsers,
               teamMembers := w.teamMembers ++ [(inv.team_pk, upk)],
               auditLog := baseLog ++ [⟨joinedAction, none,
                 [("email", em), ("invite_email", inv.email), ("user", toString upk)]⟩],
               invites := w.invites.filter (fun i => i.token != inv.token) }
      inv upk := by
  left
  refine ⟨by simp, ?_, ?_⟩
  · simp [joinedLog, List.filter_append, hbase]
  · simp only [findInvite]
    rw [List.find?_eq_none]
    intro x hx
    rw [List.mem_filter] at hx
    have hne := hx.2
    simp only [bne_iff_ne, ne_eq] at hne
    simp [hne]

theorem rollback_allOrNothing (w : World) (inv : Invite) (upk : Nat)
    (baseLog : List AuditEntry) (newUsers : List User)
    (hbase : baseLog.filter (fun e => e.action == joinedAction)
      = w.auditLog.filter (fun e => e.action == joinedAction)) :
    allOrNothing w { w with users := newUsers, auditLog := baseLog } inv upk := by
  right
  exact ⟨rfl, hbase, rfl⟩

/-- C5: the team-membership addition, the member-joined audit entry and the
invite deletion run inside one `transaction.atomic` block: for every
database behaviour (no failure, or any one of the three statements
raising), either all three effects are observable afterwards or none of the
three is. First conjunct: the already-authenticated path (visitor not yet a
member); second conjunct: the registration-bundled anonymous path. -/
theorem c5_invite_all_or_nothing (st : Settings) (token : String) (user : User)
    (method : Method) (formValid : Bool) (formEmail formPassword : String)
    (keep : Bool) (langCode : String) (tzParam : Option String) (now : Int)
    (failStep : Option (Fin 3)) (w : World) (s : Session) (inv : Invite)
    (hfind : findInvite w token = some inv) :
    (w.teamMembers.contains (inv.team_pk, user.pk) = false →
      allOrNothing w
        (invite st token (some user) method formValid formEmail formPassword
          keep langCode tzParam now failStep w s).world inv user.pk)
    ∧ allOrNothing w
        (invite st token none .post true formEmail formPassword
          keep langCode tzParam now failStep w s).world inv (freshPk w) := by
  unfold findInvite at hfind
  constructor
  · intro hmem
    cases failStep with
    | none =>
      simp only [invite, hfind, hmem, Bool.false_eq_true, if_false, inviteTx_ok]
      exact commit_allOrNothing w inv user.pk user.email w.auditLog w.users rfl
    | some i =>
      simp only [invite, hfind, hmem, Bool.false_eq_true, if_false, inviteTx_fail]
      exact rollback_allOrNothing w inv user.pk w.auditLog w.users rfl
  · cases failStep with
    | none =>
      simp only [invite, hfind, inviteTx_ok]
      exact commit_allOrNothing w inv (freshPk w) formEmail
        (w.auditLog ++ [⟨"pretix.control.auth.user.created", some (freshPk w), []⟩])
        (w.users ++ [⟨freshPk w, formEmail, formPassword, true, false, langCode,
          tzParam.getD st.TIME_ZONE⟩])
        (by simp [List.filter_append, created_not_joined])
    | some i =>
      simp only [invite, hfind, inviteTx_fail]
      exact rollback_allOrNothing w inv (freshPk w)
        (w.auditLog ++ [⟨"pretix.control.auth.user.created", some (freshPk w), []⟩])
        (w.users ++ [⟨freshPk w, formEmail, formPassword, true, false, langCode,
          tzParam.getD st.TIME_ZONE⟩])
        (by simp [List.filter_append, created_not_joined])

/-- Witness for C5: both paths at a concrete world with one invite, no
failure in one leg and a failing first statement in the other leg being
covered by further concrete instantiations of the quantifier. -/
theorem c5_invite_all_or_nothing_witness :
    ((⟨[], [], [], [⟨"tok", 3, "Team", "b@example.org"⟩], [], none⟩ : World).teamMembers.contains
        (3, demoUser.pk) = false →
      allOrNothing ⟨[], [], [], [⟨"tok", 3, "Team", "b@example.org"⟩], [], none⟩
        (invite ⟨true, true, true, "UTC"⟩ "tok" (some demoUser) .get false "" "" false "en"
          none 100 none ⟨[], [], [], [⟨"tok", 3, "Team", "b@example.org"⟩], [], none⟩
          ⟨none, none, none, none, none, none⟩).world
        ⟨"tok", 3, "Team", "b@example.org"⟩ demoUser.pk)
    ∧ allOrNothing ⟨[], [], [], [⟨"tok", 3, "Team", "b@example.org"⟩], [], none⟩
        (invite ⟨true, true, true, "UTC"⟩ "tok" none .post true "c@example.org" "pw" false
          "en" none 100 none ⟨[], [], [], [⟨"tok", 3, "Team", "b@example.org"⟩], [], none⟩
          ⟨none, none, none, none, none, none⟩).world
        ⟨"tok", 3, "Team", "b@example.org"⟩
        (freshPk ⟨[], [], [], [⟨"tok", 3, "Team", "b@example.org"⟩], [], none⟩) :=
  c5_invite_all_or_nothing ⟨true, true, true, "UTC"⟩ "tok" demoUser .get false
    "c@example.org" "pw" false "en" none 100 none
    ⟨[], [], [], [⟨"tok", 3, "Team", "b@example.org"⟩], [], none⟩
    ⟨none, none, none, none, none, none⟩ ⟨"tok", 3, "Team", "b@example.org"⟩ (by decide)

/-- C9: in the anonymous registration-bundled invite path, user creation,
the user-created audit entry and the login happen before the atomic block:
when any statement of the team-join transaction raises, the request ends in
the database exception with the new user row, its creation audit entry and
the authenticated session all persisting, while memberships, join log and
invites are exactly as before the request. -/
theorem c9_anon_invite_partial (st : Settings) (token : String)
    (formEmail formPassword : String) (keep : Bool) (langCode : String)
    (tzParam : Option String) (now : Int) (i : Fin 3) (w : World) (s : Session)
    (inv : Invite) (hfind : findInvite w token = some inv) :
    invite st token none .post true formEmail formPassword keep langCode tzParam now
        (some i) w s
      = ⟨.exn "DatabaseError",
         { s with auth_user := some (freshPk w),
                  pretix_auth_login_time := some now,
                  pretix_auth_long_session := some (st.PRETIX_LONG_SESSIONS && keep) },
         { w with users := w.users ++ [⟨freshPk w, formEmail, formPassword, true, false,
                    langCode, tzParam.getD st.TIME_ZONE⟩],
                  auditLog := w.auditLog ++ [⟨"pretix.control.auth.user.created",
                    some (freshPk w), []⟩] },
         []⟩ := by
  unfold findInvite at hfind
  simp only [invite, hfind, inviteTx_fail]
  rfl

/-- Witness for C9: the transaction fails at its second statement. -/
theorem c9_anon_invite_partial_witness :
    invite ⟨true, true, true, "UTC"⟩ "tok" none .post true "c@example.org" "pw" false "en"
        none 100 (some 1) ⟨[], [], [], [⟨"tok", 3, "Team", "b@example.org"⟩], [], none⟩
        ⟨none, none, none, none, none, none⟩
      = ⟨.exn "DatabaseError",
         ⟨none, none, some 100, some false, none, some 1⟩,
         ⟨[⟨1, "c@example.org", "pw", true, false, "en", "UTC"⟩],
          [⟨"pretix.control.auth.user.created", some 1, []⟩], [],
          [⟨"tok", 3, "Team", "b@example.org"⟩], [], none⟩,
         []⟩ :=
  c9_anon_invite_partial ⟨true, true, true, "UTC"⟩ "tok" "c@example.org" "pw" false "en"
    none 100 1 ⟨[], [], [], [⟨"tok", 3, "Team", "b@example.org"⟩], [], none⟩
    ⟨none, none, none, none, none, none⟩ ⟨"tok", 3, "Team", "b@example.org"⟩ (by decide)

theorem forgotSend_redis (u : User) (mailOk : Bool) (w : World) :
    (forgotSend u mailOk w).world.redis = w.redis := by
  unfold forgotSend
  cases mailOk <;> rfl

theorem forgotSend_mails_len (u : User) (mailOk : Bool) (w : World) :
    (forgotSend u mailOk w).world.mailsSent.length ≤ w.mailsSent.length + 1 := by
  unfold forgotSend
  cases mailOk <;> simp [appendAudit]

theorem redisExists_setex_self (rc : List (String × Int)) (now1 now2 ttl : Int)
    (k : String) (h : now2 < now1 + ttl) :
    redisExists (redisSetex rc now1 k ttl) now2 k = true := by
  unfold redisExists redisSetex
  simp [h]

theorem forgot_first (u : User) (rc : List (String × Int)) (mailOk : Bool)
    (now : Int) (w : World) (hr : w.redis = some rc)
    (hfresh : redisExists rc now (cooldownKey u.pk) = false) :
    forgotPost true (some u) mailOk now w
      = forgotSend u mailOk
          { w with redis := some (redisSetex rc now (cooldownKey u.pk) (3600 * 24)) } := by
  simp only [forgotPost, hr, hfresh, Bool.false_eq_true, if_false]
  rfl

theorem forgot_denied (u : User) (rc2 : List (String × Int)) (mailOk : Bool)
    (now : Int) (W : World) (hW : W.redis = some rc2)
    (hex : redisExists rc2 now (cooldownKey u.pk) = true) :
    forgotPost true (some u) mailOk now W
      = ⟨.ok (.redirect "control:auth.forgot"),
         appendAudit W
           ⟨"pretix.control.auth.user.forgot_password.denied.repeated", some u.pk, []⟩,
         ["We already sent you an email in the last 24 hours."]⟩ := by
  simp only [forgotPost, hW, hex, if_true]
  rfl

/-- C6: with cooldown storage present and no cooldown active, a first
password-reset request for a user sets the 24-hour cooldown and sends at
most one mail; a second request for the same user inside the window sends
no further mail, appends exactly the denied-repeated audit entry, shows the
generic already-sent error and redirects. Without cooldown storage the flow
still completes normally and the request is allowed to send the mail. -/
theorem c6_reset_cooldown (u : User) (rc : List (String × Int))
    (now1 now2 now3 : Int) (mailOk1 mailOk2 : Bool) (w wnr : World)
    (hr : w.redis = some rc)
    (hfresh : redisExists rc now1 (cooldownKey u.pk) = false)
    (hwin : now2 < now1 + 3600 * 24)
    (hnr : wnr.redis = none) :
    ((forgotPost true (some u) mailOk2 now2
        (forgotPost true (some u) mailOk1 now1 w).world).world.mailsSent
        = (forgotPost true (some u) mailOk1 now1 w).world.mailsSent
      ∧ (forgotPost true (some u) mailOk2 now2
          (forgotPost true (some u) mailOk1 now1 w).world).world.auditLog
        = (forgotPost true (some u) mailOk1 now1 w).world.auditLog
          ++ [⟨"pretix.control.auth.user.forgot_password.denied.repeated", some u.pk, []⟩]
      ∧ (forgotPost true (some u) mailOk2 now2
          (forgotPost true (some u) mailOk1 now1 w).world).messages
        = ["We already sent you an email in the last 24 hours."]
      ∧ (forgotPost true (some u) mailOk2 now2
          (forgotPost true (some u) mailOk1 now1 w).world).result
        = .ok (.redirect "control:auth.forgot")
      ∧ (forgotPost true (some u) mailOk1 now1 w).world.mailsSent.length
        ≤ w.mailsSent.length + 1)
    ∧ ((forgotPost true (some u) true now3 wnr).result
        = .ok (.redirect "control:auth.forgot")
      ∧ (forgotPost true (some u) true now3 wnr).world.mailsSent
        = wnr.mailsSent ++ [u.email]) := by
  have ho1 := forgot_first u rc mailOk1 now1 w hr hfresh
  have ho1redis : (forgotPost true (some u) mailOk1 now1 w).world.redis
      = some (redisSetex rc now1 (cooldownKey u.pk) (3600 * 24)) := by
    rw [ho1, forgotSend_redis]
  have hden := forgot_denied u (redisSetex rc now1 (cooldownKey u.pk) (3600 * 24)) mailOk2
    now2 (forgotPost true (some u) mailOk1 now1 w).world ho1redis
    (redisExists_setex_self rc now1 now2 (3600 * 24) (cooldownKey u.pk) hwin)
  have hnoredis : forgotPost true (some u) true now3 wnr = forgotSend u true wnr := by
    simp only [forgotPost, hnr]
    rfl
  refine ⟨⟨?_, ?_, ?_, ?_, ?_⟩, ?_, ?_⟩
  · simp [hden, appendAudit]
  · simp [hden, appendAudit]
  · simp [hden]
  · simp [hden]
  · rw [ho1]
    exact forgotSend_mails_len u mailOk1
      { w with redis := some (redisSetex rc now1 (cooldownKey u.pk) (3600 * 24)) }
  · simp [hnoredis, forgotSend]
  · simp [hnoredis, forgotSend, appendAudit]

/-- Witness for C6: empty cooldown store, first request at time 0, second at
time 100, and a redis-less world beside them. -/
theorem c6_reset_cooldown_witness :
    ((forgotPost true (some demoUser) true 100
        (forgotPost true (some demoUser) true 0
          ⟨[demoUser], [], [], [], [], some []⟩).world).world.mailsSent
        = (forgotPost true (some demoUser) true 0
            ⟨[demoUser], [], [], [], [], some []⟩).world.mailsSent
      ∧ (forgotPost true (some demoUser) true 100
          (forgotPost true (some demoUser) true 0
            ⟨[demoUser], [], [], [], [], some []⟩).world).world.auditLog
        = (forgotPost true (some demoUser) true 0
            ⟨[demoUser], [], [], [], [], some []⟩).world.auditLog
          ++ [⟨"pretix.control.auth.user.forgot_password.denied.repeated", some 7, []⟩]
      ∧ (forgotPost true (some demoUser) true 100
          (forgotPost true (some demoUser) true 0
            ⟨[demoUser], [], [], [], [], some []⟩).world).messages
        = ["We already sent you an email in the last 24 hours."]
      ∧ (forgotPost true (some demoUser) true 100
          (forgotPost true (some demoUser) true 0
            ⟨[demoUser], [], [], [], [], some []⟩).world).result
        = .ok (.redirect "control:auth.forgot")
      ∧ (forgotPost true (some demoUser) true 0
          ⟨[demoUser], [], [], [], [], some []⟩).world.mailsSent.length
        ≤ ([] : List String).length + 1)
    ∧ ((forgotPost true (some demoUser) true 5
          ⟨[demoUser], [], [], [], [], none⟩).result
        = .ok (.redirect "control:auth.forgot")
      ∧ (forgotPost true (some demoUser) true 5
          ⟨[demoUser], [], [], [], [], none⟩).world.mailsSent
        = [] ++ [demoUser.email]) :=
  c6_reset_cooldown demoUser [] 0 100 5 true true
    ⟨[demoUser], [], [], [], [], some []⟩ ⟨[demoUser], [], [], [], [], none⟩
    rfl rfl (by decide) rfl

end PretixAuth
